import Mathlib

/-
Verification of the ddg-mcp server (src/ddg_mcp/server.py).

The file shallowly embeds the data model and the three request handlers the
specification talks about:

  * `handle_list_tools`  — the static tool catalog (source lines 86-161);
  * `handle_call_tool`   — the tool dispatcher (source lines 163-372);
  * `handle_get_prompt`  — the "search-results-summary" prompt (lines 45-84).

Python dictionary values that flow through the handlers are modelled by the
inductive `Value` (strings and integers, the two scalar shapes the schemas
declare); argument mappings and provider records are association lists over
`Value`.  Python truthiness tests (`if not arguments`, `if not keywords`,
`if image_url`) are modelled by `argsTruthy`, `truthyOpt` and `Value.truthy`.
The external DuckDuckGo client (`DDGS`) is an opaque `Provider` record of
functions, one per operation the source invokes, so that theorems can state
exactly which structured query each dispatch branch passes to the provider.
`ValueError` raises are modelled by `Except.error` with the `DispatchError`
(resp. `PromptError`) taxonomy of the specification.
-/

/-- A scalar value in an arguments mapping or a provider record. -/
inductive Value where
  | str (s : String)
  | int (n : Int)
deriving DecidableEq

/-- How Python's str() renders the value inside an f-string. -/
def Value.pyStr : Value → String
  | .str s => s
  | .int n => toString n

/-- Python truthiness of a scalar: empty string and zero are falsy. -/
def Value.truthy : Value → Bool
  | .str s => !(s == "")
  | .int n => !(n == 0)

/-- Arguments mapping (`dict` in the source): an association list. -/
abbrev Args := List (String × Value)

/-- A provider record (`SearchRecord`): an association list of fields. -/
abbrev Record := List (String × Value)

/-- Dict lookup `m.get(k)`: the first binding of `k`, if any. -/
def lookupVal (m : List (String × Value)) (k : String) : Option Value :=
  match m.find? (fun q => q.1 == k) with
  | some q => some q.2
  | none => none

/-- Dict lookup with default, `m.get(k, d)`: the binding of `k`, or `d`. -/
def getVal (m : List (String × Value)) (k : String) (d : Value) : Value :=
  match lookupVal m k with
  | some v => v
  | none => d

/-- Field rendering `r.get(k, d)` inside an f-string: the field's str() if
present, the literal placeholder `d` otherwise. -/
def getField (r : Record) (k : String) (d : String) : String :=
  match lookupVal r k with
  | some v => v.pyStr
  | none => d

/-- Python truthiness of `m.get(k)`: `none` (absent) is falsy. -/
def truthyOpt : Option Value → Bool
  | none => false
  | some v => v.truthy

/-- Python truthiness of the `arguments` parameter (`if not arguments`):
`None` and the empty dict are falsy. -/
def argsTruthy : Option Args → Bool
  | none => false
  | some [] => false
  | some (_ :: _) => true

/-- The structured request `ddgs.text(...)` receives (source lines 185-191). -/
structure TextQuery where
  keywords : Value
  region : Value
  safesearch : Value
  timelimit : Option Value
  max_results : Value
deriving DecidableEq

/-- The structured request `ddgs.images(...)` receives (lines 226-237). -/
structure ImageQuery where
  keywords : Value
  region : Value
  safesearch : Value
  timelimit : Option Value
  size : Option Value
  color : Option Value
  type_image : Option Value
  layout : Option Value
  license_image : Option Value
  max_results : Value
deriving DecidableEq

/-- The structured request `ddgs.news(...)` receives (lines 279-285). -/
structure NewsQuery where
  keywords : Value
  region : Value
  safesearch : Value
  timelimit : Option Value
  max_results : Value
deriving DecidableEq

/-- The structured request `ddgs.videos(...)` receives (lines 320-329). -/
structure VideoQuery where
  keywords : Value
  region : Value
  safesearch : Value
  timelimit : Option Value
  resolution : Option Value
  duration : Option Value
  license_videos : Option Value
  max_results : Value
deriving DecidableEq

/-- The structured request `ddgs.chat(...)` receives (lines 359-362). -/
structure ChatQuery where
  keywords : Value
  model : Value
deriving DecidableEq

/-- The opaque external search provider (the `DDGS` client), one function per
operation the source calls.  A fresh client is built per call in the source;
since it holds no state that matters here, the provider is a pure record. -/
structure Provider where
  text : TextQuery → List Record
  images : ImageQuery → List Record
  news : NewsQuery → List Record
  videos : VideoQuery → List Record
  chat : ChatQuery → String

/-- The dispatcher's error taxonomy (the `ValueError`s of lines 171/176/372). -/
inductive DispatchError where
  | MissingArguments
  | UnknownTool (name : String)
  | MissingRequiredParameter
deriving DecidableEq

/-- A content block of the response; the source only ever builds
`types.TextContent`. -/
inductive Content where
  | text (s : String)
deriving DecidableEq

/-- A tool descriptor of the catalog: name, description, the parameter names
declared under `inputSchema.properties` (in source order) and the
`required` list. -/
structure Tool where
  name : String
  description : String
  properties : List String
  required : List String

/-- The static tool catalog (source lines 86-161).  The argument is the
(trivial) request, so that constancy across calls is a statable property. -/
def handle_list_tools (_ : Unit) : List Tool :=
  [ { name := "ddg-text-search",
      description := "Search the web for text results using DuckDuckGo",
      properties := ["keywords", "region", "safesearch", "timelimit", "max_results"],
      required := ["keywords"] },
    { name := "ddg-image-search",
      description := "Search the web for images using DuckDuckGo",
      properties := ["keywords", "region", "safesearch", "timelimit", "size",
                     "color", "type_image", "layout", "license_image", "max_results"],
      required := ["keywords"] },
    { name := "ddg-news-search",
      description := "Search for news articles using DuckDuckGo",
      properties := ["keywords", "region", "safesearch", "timelimit", "max_results"],
      required := ["keywords"] },
    { name := "ddg-video-search",
      description := "Search for videos using DuckDuckGo",
      properties := ["keywords", "region", "safesearch", "timelimit", "resolution",
                     "duration", "license_videos", "max_results"],
      required := ["keywords"] } ]

/-- Pairing of records with 1-based ordinals, as `enumerate(results, 1)`. -/
def numberFrom (i : Nat) : List Record → List (Nat × Record)
  | [] => []
  | r :: rs => (i, r) :: numberFrom (i + 1) rs

/-- One record of text-search output (source lines 196-200). -/
def textResultLine (i : Nat) (r : Record) : String :=
  toString i ++ ". " ++ getField r "title" "No title" ++
  "\n   URL: " ++ getField r "href" "No URL" ++
  "\n   " ++ getField r "body" "No description" ++ "\n\n"

/-- The single text block of `ddg-text-search` (lines 194-200). -/
def formatTextResults (kw : Value) (results : List Record) : String :=
  "Search results for '" ++ kw.pyStr ++ "':\n\n" ++
  String.join ((numberFrom 1 results).map (fun x => textResultLine x.1 x.2))

/-- The four fixed lines of one image-search block (lines 245-250). -/
def imageBase (i : Nat) (r : Record) : String :=
  toString i ++ ". " ++ getField r "title" "No title" ++
  "\n   Source: " ++ getField r "source" "Unknown" ++
  "\n   URL: " ++ getField r "url" "No URL" ++
  "\n   Size: " ++ getField r "width" "N/A" ++ "x" ++ getField r "height" "N/A" ++ "\n"

/-- One image-search block: the base lines, a direct-image line only when the
`image` field is present and truthy, and a trailing blank line
(lines 245-256). -/
def imageResultText (i : Nat) (r : Record) : String :=
  let base := imageBase i r
  let withImage :=
    match lookupVal r "image" with
    | some v => if v.truthy then base ++ "   Image: " ++ v.pyStr ++ "\n" else base
    | none => base
  withImage ++ "\n"

/-- The per-record content blocks of `ddg-image-search` (lines 242-265). -/
def formatImageBlocks (results : List Record) : List Content :=
  (numberFrom 1 results).map (fun x => Content.text (imageResultText x.1 x.2))

/-- One record of news-search output (lines 290-296). -/
def newsResultLine (i : Nat) (r : Record) : String :=
  toString i ++ ". " ++ getField r "title" "No title" ++
  "\n   Source: " ++ getField r "source" "Unknown" ++
  "\n   Date: " ++ getField r "date" "No date" ++
  "\n   URL: " ++ getField r "url" "No URL" ++
  "\n   " ++ getField r "body" "No description" ++ "\n\n"

/-- The single text block of `ddg-news-search` (lines 288-296). -/
def formatNewsResults (kw : Value) (results : List Record) : String :=
  "News search results for '" ++ kw.pyStr ++ "':\n\n" ++
  String.join ((numberFrom 1 results).map (fun x => newsResultLine x.1 x.2))

/-- One record of video-search output (lines 334-341). -/
def videoResultLine (i : Nat) (r : Record) : String :=
  toString i ++ ". " ++ getField r "title" "No title" ++
  "\n   Publisher: " ++ getField r "publisher" "Unknown" ++
  "\n   Duration: " ++ getField r "duration" "Unknown" ++
  "\n   URL: " ++ getField r "content" "No URL" ++
  "\n   Published: " ++ getField r "published" "No date" ++
  "\n   " ++ getField r "description" "No description" ++ "\n\n"

/-- The single text block of `ddg-video-search` (lines 332-341). -/
def formatVideoResults (kw : Value) (results : List Record) : String :=
  "Video search results for '" ++ kw.pyStr ++ "':\n\n" ++
  String.join ((numberFrom 1 results).map (fun x => videoResultLine x.1 x.2))

/-- The tool dispatcher `handle_call_tool` (source lines 163-372), with the
external calls routed through the `Provider` record. -/
def handle_call_tool (name : String) (arguments : Option Args) (p : Provider) :
    Except DispatchError (List Content) :=
  if argsTruthy arguments = false then
    .error .MissingArguments
  else
    let args := arguments.getD []
    if name == "ddg-text-search" then
      match lookupVal args "keywords" with
      | none => .error .MissingRequiredParameter
      | some kw =>
        if kw.truthy = false then .error .MissingRequiredParameter
        else
          let region := getVal args "region" (Value.str "wt-wt")
          let safesearch := getVal args "safesearch" (Value.str "moderate")
          let timelimit := lookupVal args "timelimit"
          let max_results := getVal args "max_results" (Value.int 10)
          let results := p.text ⟨kw, region, safesearch, timelimit, max_results⟩
          .ok [Content.text (formatTextResults kw results)]
    else if name == "ddg-image-search" then
      match lookupVal args "keywords" with
      | none => .error .MissingRequiredParameter
      | some kw =>
        if kw.truthy = false then .error .MissingRequiredParameter
        else
          let region := getVal args "region" (Value.str "wt-wt")
          let safesearch := getVal args "safesearch" (Value.str "moderate")
          let timelimit := lookupVal args "timelimit"
          let size := lookupVal args "size"
          let color := lookupVal args "color"
          let type_image := lookupVal args "type_image"
          let layout := lookupVal args "layout"
          let license_image := lookupVal args "license_image"
          let max_results := getVal args "max_results" (Value.int 10)
          let results := p.images ⟨kw, region, safesearch, timelimit, size, color,
            type_image, layout, license_image, max_results⟩
          .ok (formatImageBlocks results)
    else if name == "ddg-news-search" then
      match lookupVal args "keywords" with
      | none => .error .MissingRequiredParameter
      | some kw =>
        if kw.truthy = false then .error .MissingRequiredParameter
        else
          let region := getVal args "region" (Value.str "wt-wt")
          let safesearch := getVal args "safesearch" (Value.str "moderate")
          let timelimit := lookupVal args "timelimit"
          let max_results := getVal args "max_results" (Value.int 10)
          let results := p.news ⟨kw, region, safesearch, timelimit, max_results⟩
          .ok [Content.text (formatNewsResults kw results)]
    else if name == "ddg-video-search" then
      match lookupVal args "keywords" with
      | none => .error .MissingRequiredParameter
      | some kw =>
        if kw.truthy = false then .error .MissingRequiredParameter
        else
          let region := getVal args "region" (Value.str "wt-wt")
          let safesearch := getVal args "safesearch" (Value.str "moderate")
          let timelimit := lookupVal args "timelimit"
          let resolution := lookupVal args "resolution"
          let duration := lookupVal args "duration"
          let license_videos := lookupVal args "license_videos"
          let max_results := getVal args "max_results" (Value.int 10)
          let results := p.videos ⟨kw, region, safesearch, timelimit, resolution,
            duration, license_videos, max_results⟩
          .ok [Content.text (formatVideoResults kw results)]
    else if name == "ddg-ai-chat" then
      match lookupVal args "keywords" with
      | none => .error .MissingRequiredParameter
      | some kw =>
        if kw.truthy = false then .error .MissingRequiredParameter
        else
          let model := getVal args "model" (Value.str "gpt-4o-mini")
          let result := p.chat ⟨kw, model⟩
          .ok [Content.text ("DuckDuckGo AI (" ++ model.pyStr ++ ") response:\n\n" ++ result)]
    else
      .error (.UnknownTool name)

/-- The prompt handler's error taxonomy (the `ValueError`s of lines 54/84). -/
inductive PromptError where
  | MissingQuery
  | UnknownPrompt (name : String)
deriving DecidableEq

/-- A prompt message (`types.PromptMessage` with `TextContent`). -/
structure PromptMessage where
  role : String
  text : String
deriving DecidableEq

/-- The result of `handle_get_prompt` (`types.GetPromptResult`). -/
structure GetPromptResult where
  description : String
  messages : List PromptMessage
deriving DecidableEq

/-- Dict lookup `m.get(k)` on a `dict[str, str]`. -/
def lookupStr (m : List (String × String)) (k : String) : Option String :=
  match m.find? (fun q => q.1 == k) with
  | some q => some q.2
  | none => none

/-- One record of the prompt's embedded results text (lines 64-69). -/
def promptRecordText (r : Record) : String :=
  "Title: " ++ getField r "title" "No title" ++
  "\nURL: " ++ getField r "href" "No URL" ++
  "\nDescription: " ++ getField r "body" "No description"

/-- The prompt handler `handle_get_prompt` (source lines 45-84).  The records
the external call `ddgs.text(query, max_results=10)` returns are passed in as
`searchResults`, since the provider is opaque. -/
def handle_get_prompt (name : String) (arguments : Option (List (String × String)))
    (searchResults : List Record) : Except PromptError GetPromptResult :=
  if name == "search-results-summary" then
    match arguments with
    | none => .error .MissingQuery
    | some args =>
      if args.isEmpty then .error .MissingQuery
      else
        match lookupStr args "query" with
        | none => .error .MissingQuery
        | some query =>
          let style := match lookupStr args "style" with
            | some s => s
            | none => "brief"
          let detail := if style == "detailed" then " Give extensive details." else ""
          let resultsText := String.intercalate "\n\n" (searchResults.map promptRecordText)
          .ok { description := "Summarize search results for '" ++ query ++ "'",
                messages := [ { role := "user",
                                text := "Here are the search results for '" ++ query ++
                                  "'. Please summarize them" ++ detail ++ ":\n\n" ++
                                  resultsText } ] }
  else
    .error (.UnknownPrompt name)

/-- A session: a list of dispatch calls run in order against one provider.
The source keeps no state between calls, so a session is just a map. -/
def runSession (calls : List (String × Option Args)) (p : Provider) :
    List (Except DispatchError (List Content)) :=
  calls.map (fun c => handle_call_tool c.1 c.2 p)

/-- Leading-match test on character lists (`pat` begins `l`). -/
def startsChars : List Char → List Char → Bool
  | [], _ => true
  | _ :: _, [] => false
  | a :: as, b :: bs => a == b && startsChars as bs

/-- Occurrence test on character lists (`pat` occurs inside `l`). -/
def subChars (pat : List Char) : List Char → Bool
  | [] => pat.isEmpty
  | c :: t => startsChars pat (c :: t) || subChars pat t

/-- Substring occurrence test on strings. -/
def strHasSub (pat s : String) : Bool := subChars pat.data s.data

/-- The tool names the dispatcher branches on: the four catalog tools plus the
unadvertised `ddg-ai-chat` branch. -/
def dispatchNames : List String :=
  ["ddg-text-search", "ddg-image-search", "ddg-news-search", "ddg-video-search", "ddg-ai-chat"]

/-- Modelled from the spec: the validation policy of §4.2, read over the
dispatcher-recognized names (the amendment replaces "catalog entry" by
"dispatcher entry", i.e. `dispatchNames`).  Returns the error the policy
demands, or `none` when validation passes. -/
def validationSpec (name : String) (arguments : Option Args) : Option DispatchError :=
  if argsTruthy arguments = false then some .MissingArguments
  else if dispatchNames.contains name = false then some (.UnknownTool name)
  else if truthyOpt (lookupVal (arguments.getD []) "keywords") = false then
    some .MissingRequiredParameter
  else none

/-- A provider stub that returns nothing anywhere. -/
def emptyProvider : Provider :=
  { text := fun _ => [], images := fun _ => [], news := fun _ => [],
    videos := fun _ => [], chat := fun _ => "" }

/-- The two-record text provider stub of the spec's testable property. -/
def twoRecordProvider : Provider :=
  { text := fun _ =>
      [ [("title", Value.str "A"), ("href", Value.str "u1"), ("body", Value.str "d1")],
        [("title", Value.str "B"), ("href", Value.str "u2"), ("body", Value.str "d2")] ],
    images := fun _ => [], news := fun _ => [], videos := fun _ => [],
    chat := fun _ => "hello" }

/-- The image provider stub with two records, one carrying a direct image URL. -/
def twoImageProvider : Provider :=
  { text := fun _ => [],
    images := fun _ =>
      [ [("title", Value.str "A"), ("image", Value.str "i1")],
        [("title", Value.str "B")] ],
    news := fun _ => [], videos := fun _ => [], chat := fun _ => "" }

/-- The one-record result list used to exercise the prompt handler. -/
def promptStubResults : List Record :=
  [[("title", Value.str "A"), ("href", Value.str "u1"), ("body", Value.str "d1")]]

/-- The texts of the messages of a prompt result (empty on error). -/
def messageTexts : Except PromptError GetPromptResult → List String
  | .ok r => r.messages.map (fun m => m.text)
  | .error _ => []

/-- The exact block `ddg-text-search` produces for `twoRecordProvider`. -/
def twoRecordExpected : String :=
  "Search results for 'x':\n\n1. A\n   URL: u1\n   d1\n\n2. B\n   URL: u2\n   d2\n\n"

/-- String append distributes over the underlying character lists. -/
lemma data_app (a b : String) : (a ++ b).data = a.data ++ b.data := rfl

/-- A list starts with itself followed by anything. -/
lemma startsChars_self_append (p t : List Char) : startsChars p (p ++ t) = true := by
  induction p with
  | nil => rfl
  | cons a as ih => simp [startsChars, ih]

/-- A leading match is in particular an occurrence. -/
lemma subChars_of_startsChars (p l : List Char) (h : startsChars p l = true) :
    subChars p l = true := by
  cases l with
  | nil =>
    cases p with
    | nil => rfl
    | cons a as => simp [startsChars] at h
  | cons c t => simp [subChars, h]

/-- Occurrences survive consing an element in front. -/
lemma subChars_cons (p : List Char) (a : Char) (l : List Char)
    (h : subChars p l = true) : subChars p (a :: l) = true := by
  simp [subChars, h]

/-- Occurrences survive prepending any list. -/
lemma subChars_append_left (p pre l : List Char) (h : subChars p l = true) :
    subChars p (pre ++ l) = true := by
  induction pre with
  | nil => exact h
  | cons a as ih => exact subChars_cons p a (as ++ l) ih

/-- A list occurs at the front of itself followed by anything. -/
lemma subChars_self_append (p t : List Char) : subChars p (p ++ t) = true :=
  subChars_of_startsChars p (p ++ t) (startsChars_self_append p t)

/-- Enumeration preserves length. -/
lemma numberFrom_length (i : Nat) (l : List Record) :
    (numberFrom i l).length = l.length := by
  induction l generalizing i with
  | nil => rfl
  | cons r rs ih => simp [numberFrom, ih]

/-- The i-th element of an enumeration is the i-th record with ordinal j + i. -/
lemma numberFrom_get? (l : List Record) (j i : Nat) :
    (numberFrom j l).get? i = (l.get? i).map (fun r => (j + i, r)) := by
  induction l generalizing j i with
  | nil => simp [numberFrom]
  | cons r rs ih =>
    cases i with
    | zero => simp [numberFrom]
    | succ i =>
      simp only [numberFrom, List.get?, ih]
      cases rs.get? i <;> simp
      omega

/-- An argument mapping with a binding is truthy. -/
lemma argsTruthy_of_lookup (args : Args) (k : String) (v : Value)
    (h : lookupVal args k = some v) : argsTruthy (some args) = true := by
  cases args with
  | nil => simp [lookupVal, List.find?] at h
  | cons a l => rfl

/-- The text-search branch of the dispatcher, for valid keywords: the declared
optional parameters are extracted with their documented defaults and passed to
the provider's text operation; the result is one formatted block. -/
lemma dispatch_text (args : Args) (p : Provider) (kw : Value)
    (h1 : lookupVal args "keywords" = some kw) (h2 : kw.truthy = true) :
    handle_call_tool "ddg-text-search" (some args) p =
      .ok [Content.text (formatTextResults kw (p.text
        ⟨kw, getVal args "region" (Value.str "wt-wt"),
          getVal args "safesearch" (Value.str "moderate"),
          lookupVal args "timelimit",
          getVal args "max_results" (Value.int 10)⟩))] := by
  have ht := argsTruthy_of_lookup args "keywords" kw h1
  simp [handle_call_tool, ht, h1, h2]

/-- The image-search branch of the dispatcher, for valid keywords. -/
lemma dispatch_images (args : Args) (p : Provider) (kw : Value)
    (h1 : lookupVal args "keywords" = some kw) (h2 : kw.truthy = true) :
    handle_call_tool "ddg-image-search" (some args) p =
      .ok (formatImageBlocks (p.images
        ⟨kw, getVal args "region" (Value.str "wt-wt"),
          getVal args "safesearch" (Value.str "moderate"),
          lookupVal args "timelimit", lookupVal args "size", lookupVal args "color",
          lookupVal args "type_image", lookupVal args "layout",
          lookupVal args "license_image",
          getVal args "max_results" (Value.int 10)⟩)) := by
  have ht := argsTruthy_of_lookup args "keywords" kw h1
  simp [handle_call_tool, ht, h1, h2]

/-- The news-search branch of the dispatcher, for valid keywords. -/
lemma dispatch_news (args : Args) (p : Provider) (kw : Value)
    (h1 : lookupVal args "keywords" = some kw) (h2 : kw.truthy = true) :
    handle_call_tool "ddg-news-search" (some args) p =
      .ok [Content.text (formatNewsResults kw (p.news
        ⟨kw, getVal args "region" (Value.str "wt-wt"),
          getVal args "safesearch" (Value.str "moderate"),
          lookupVal args "timelimit",
          getVal args "max_results" (Value.int 10)⟩))] := by
  have ht := argsTruthy_of_lookup args "keywords" kw h1
  simp [handle_call_tool, ht, h1, h2]

/-- The video-search branch of the dispatcher, for valid keywords. -/
lemma dispatch_videos (args : Args) (p : Provider) (kw : Value)
    (h1 : lookupVal args "keywords" = some kw) (h2 : kw.truthy = true) :
    handle_call_tool "ddg-video-search" (some args) p =
      .ok [Content.text (formatVideoResults kw (p.videos
        ⟨kw, getVal args "region" (Value.str "wt-wt"),
          getVal args "safesearch" (Value.str "moderate"),
          lookupVal args "timelimit", lookupVal args "resolution",
          lookupVal args "duration", lookupVal args "license_videos",
          getVal args "max_results" (Value.int 10)⟩))] := by
  have ht := argsTruthy_of_lookup args "keywords" kw h1
  simp [handle_call_tool, ht, h1, h2]

/-- The chat branch of the dispatcher, for valid keywords: the model argument
defaults to the literal "gpt-4o-mini", and the raw provider response is wrapped
with a one-line header naming the model. -/
lemma dispatch_chat (args : Args) (p : Provider) (kw : Value)
    (h1 : lookupVal args "keywords" = some kw) (h2 : kw.truthy = true) :
    handle_call_tool "ddg-ai-chat" (some args) p =
      .ok [Content.text ("DuckDuckGo AI (" ++
        (getVal args "model" (Value.str "gpt-4o-mini")).pyStr ++ ") response:\n\n" ++
        p.chat ⟨kw, getVal args "model" (Value.str "gpt-4o-mini")⟩)] := by
  have ht := argsTruthy_of_lookup args "keywords" kw h1
  simp [handle_call_tool, ht, h1, h2]

/-- Claim C2: with the provider stub returning exactly the records
[{title:"A", href:"u1", body:"d1"}, {title:"B", href:"u2", body:"d2"}],
`ddg-text-search` with keywords="x" returns exactly one text content block; it
contains both records in provider order, the first prefixed with ordinal "1."
and the second with "2.", and none of the placeholder substitutions
"No title", "No URL", "No description" appear. -/
theorem claim_C2 :
    handle_call_tool "ddg-text-search" (some [("keywords", Value.str "x")])
        twoRecordProvider = .ok [Content.text twoRecordExpected] ∧
    strHasSub "1. A" twoRecordExpected = true ∧
    strHasSub "2. B" twoRecordExpected = true ∧
    strHasSub "1. A\n   URL: u1\n   d1\n\n2. B\n   URL: u2\n   d2\n\n" twoRecordExpected = true ∧
    strHasSub "No title" twoRecordExpected = false ∧
    strHasSub "No URL" twoRecordExpected = false ∧
    strHasSub "No description" twoRecordExpected = false := by
  refine ⟨rfl, ?_, ?_, ?_, ?_, ?_, ?_⟩ <;> decide

/-- Claim C5: the catalog is a constant function of the request, and every
descriptor's required-parameter list is exactly ["keywords"], is non-empty,
and is contained in the descriptor's declared parameter properties. -/
theorem claim_C5 :
    (∀ u v : Unit, handle_list_tools u = handle_list_tools v) ∧
    ((handle_list_tools ()).all (fun t =>
      (t.required == ["keywords"]) && !(t.required.isEmpty) &&
      t.required.all (fun q => t.properties.contains q))) = true :=
  ⟨fun _ _ => rfl, by decide⟩

/-- Claim C8: dispatching is a pure function of (name, arguments, provider);
inside any session, two successive invocations with identical name and
arguments both yield the very same value `handle_call_tool name arguments p`,
whatever calls ran before or after. -/
theorem claim_C8 (name : String) (arguments : Option Args) (p : Provider)
    (pre post : List (String × Option Args)) :
    runSession (pre ++ (name, arguments) :: (name, arguments) :: post) p =
      runSession pre p ++ handle_call_tool name arguments p ::
        handle_call_tool name arguments p :: runSession post p := by
  simp [runSession]

/-- Claim C3, counterexample: two records both lacking the `title` field but
differing in their other fields produce different per-record outputs (the URL
and body fields are rendered too), even though both outputs do contain the
"No title" placeholder.  So the output is not byte-identical regardless of the
other fields. -/
theorem claim_C3_counterexample :
    lookupVal [("body", Value.str "d1")] "title" = none ∧
    lookupVal [("href", Value.str "u1")] "title" = none ∧
    strHasSub "No title" (textResultLine 1 [("body", Value.str "d1")]) = true ∧
    strHasSub "No title" (textResultLine 1 [("href", Value.str "u1")]) = true ∧
    textResultLine 1 [("body", Value.str "d1")] ≠ textResultLine 1 [("href", Value.str "u1")] := by
  refine ⟨rfl, rfl, ?_, ?_, ?_⟩ <;> decide

/-- Claim C3, amended: for every record lacking the `title` field, the
per-record output (text search and news search) contains the literal "No
title", and its leading segment — the ordinal and the rendered title up to the
next field label — is byte-identical regardless of which other fields are
present; the remainder of the output renders the other fields. -/
theorem claim_C3 (i : Nat) (r : Record) (h : lookupVal r "title" = none) :
    (textResultLine i r =
      toString i ++ ". " ++ "No title" ++ "\n   URL: " ++ getField r "href" "No URL" ++
        "\n   " ++ getField r "body" "No description" ++ "\n\n") ∧
    strHasSub "No title" (textResultLine i r) = true ∧
    (newsResultLine i r =
      toString i ++ ". " ++ "No title" ++ "\n   Source: " ++ getField r "source" "Unknown" ++
        "\n   Date: " ++ getField r "date" "No date" ++ "\n   URL: " ++
        getField r "url" "No URL" ++ "\n   " ++ getField r "body" "No description" ++ "\n\n") ∧
    strHasSub "No title" (newsResultLine i r) = true := by
  refine ⟨by simp [textResultLine, getField, h], ?_, by simp [newsResultLine, getField, h], ?_⟩
  · show subChars _ _ = true
    simp only [textResultLine, getField, h, data_app, List.append_assoc]
    exact subChars_append_left _ _ _ (subChars_append_left _ _ _ (subChars_self_append _ _))
  · show subChars _ _ = true
    simp only [newsResultLine, getField, h, data_app, List.append_assoc]
    exact subChars_append_left _ _ _ (subChars_append_left _ _ _ (subChars_self_append _ _))

/-- Claim C3, witness: the amended statement at ordinal 1 and the concrete
record {body: "d1"}, which lacks a title. -/
theorem claim_C3_witness :
    textResultLine 1 [("body", Value.str "d1")] =
      toString 1 ++ ". " ++ "No title" ++ "\n   URL: " ++
        getField [("body", Value.str "d1")] "href" "No URL" ++ "\n   " ++
        getField [("body", Value.str "d1")] "body" "No description" ++ "\n\n" :=
  (claim_C3 1 [("body", Value.str "d1")] rfl).1

/-- Claim C4, counterexample: a record whose `image` field is present but
empty gets no direct-image line (the source tests Python truthiness, not mere
presence), so "contains an image line iff the record has an image field" fails
as stated. -/
theorem claim_C4_counterexample :
    (lookupVal [("image", Value.str "")] "image").isSome = true ∧
    strHasSub "Image:" (imageResultText 1 [("image", Value.str "")]) = false := by
  refine ⟨rfl, ?_⟩; decide

/-- Claim C4, amended: for valid keywords, `ddg-image-search` returns exactly
the per-record blocks (one per record, in provider order, not one concatenated
block); there are as many blocks as records, the i-th block renders the i-th
record with ordinal i+1 (title, source, URL, width x height with placeholders
when absent), and a block carries the direct-image line if and only if its
record's `image` field is present *and truthy* (non-empty). -/
theorem claim_C4 (args : Args) (p : Provider) (kw : Value)
    (h1 : lookupVal args "keywords" = some kw) (h2 : kw.truthy = true) :
    (handle_call_tool "ddg-image-search" (some args) p =
      .ok (formatImageBlocks (p.images
        ⟨kw, getVal args "region" (Value.str "wt-wt"),
          getVal args "safesearch" (Value.str "moderate"),
          lookupVal args "timelimit", lookupVal args "size", lookupVal args "color",
          lookupVal args "type_image", lookupVal args "layout",
          lookupVal args "license_image", getVal args "max_results" (Value.int 10)⟩))) ∧
    (∀ results : List Record, (formatImageBlocks results).length = results.length) ∧
    (∀ (results : List Record) (i : Nat), (formatImageBlocks results).get? i =
      (results.get? i).map (fun r => Content.text (imageResultText (1 + i) r))) ∧
    (∀ (i : Nat) (r : Record) (v : Value), lookupVal r "image" = some v → v.truthy = true →
      imageResultText i r = (imageBase i r ++ "   Image: " ++ v.pyStr ++ "\n") ++ "\n") ∧
    (∀ (i : Nat) (r : Record), truthyOpt (lookupVal r "image") = false →
      imageResultText i r = imageBase i r ++ "\n") := by
  refine ⟨dispatch_images args p kw h1 h2, ?_, ?_, ?_, ?_⟩
  · intro results
    simp [formatImageBlocks, numberFrom_length]
  · intro results i
    simp only [formatImageBlocks, List.get?_map, numberFrom_get?]
    cases results.get? i <;> simp
  · intro i r v hv hvt
    simp [imageResultText, hv, hvt]
  · intro i r hf
    cases hv : lookupVal r "image" with
    | none => simp [imageResultText, hv]
    | some v =>
      rw [hv] at hf
      simp only [truthyOpt] at hf
      simp [imageResultText, hv, hf]

/-- Claim C4, witness: with the two-record image stub (one record carrying a
direct image URL), the dispatcher returns exactly the two per-record blocks,
and there are exactly 2 of them. -/
theorem claim_C4_witness :
    handle_call_tool "ddg-image-search" (some [("keywords", Value.str "x")])
        twoImageProvider =
      .ok (formatImageBlocks (twoImageProvider.images
        ⟨Value.str "x", Value.str "wt-wt", Value.str "moderate",
          none, none, none, none, none, none, Value.int 10⟩)) ∧
    (formatImageBlocks (twoImageProvider.images
        ⟨Value.str "x", Value.str "wt-wt", Value.str "moderate",
          none, none, none, none, none, none, Value.int 10⟩)).length = 2 :=
  ⟨(claim_C4 [("keywords", Value.str "x")] twoImageProvider (Value.str "x") rfl rfl).1,
    by decide⟩

/-- Claim C6: for each recognized search tool and any arguments mapping whose
`keywords` value is present and truthy, every declared optional parameter is
extracted from the mapping with the documented default substituted when absent
(region "wt-wt", safesearch "moderate", max_results 10; the facet parameters
default to absent), and the resulting structured query is passed unchanged to
the corresponding provider operation. -/
theorem claim_C6 (args : Args) (p : Provider) (kw : Value)
    (h1 : lookupVal args "keywords" = some kw) (h2 : kw.truthy = true) :
    (handle_call_tool "ddg-text-search" (some args) p =
      .ok [Content.text (formatTextResults kw (p.text
        ⟨kw, getVal args "region" (Value.str "wt-wt"),
          getVal args "safesearch" (Value.str "moderate"),
          lookupVal args "timelimit",
          getVal args "max_results" (Value.int 10)⟩))]) ∧
    (handle_call_tool "ddg-image-search" (some args) p =
      .ok (formatImageBlocks (p.images
        ⟨kw, getVal args "region" (Value.str "wt-wt"),
          getVal args "safesearch" (Value.str "moderate"),
          lookupVal args "timelimit", lookupVal args "size", lookupVal args "color",
          lookupVal args "type_image", lookupVal args "layout",
          lookupVal args "license_image",
          getVal args "max_results" (Value.int 10)⟩))) ∧
    (handle_call_tool "ddg-news-search" (some args) p =
      .ok [Content.text (formatNewsResults kw (p.news
        ⟨kw, getVal args "region" (Value.str "wt-wt"),
          getVal args "safesearch" (Value.str "moderate"),
          lookupVal args "timelimit",
          getVal args "max_results" (Value.int 10)⟩))]) ∧
    (handle_call_tool "ddg-video-search" (some args) p =
      .ok [Content.text (formatVideoResults kw (p.videos
        ⟨kw, getVal args "region" (Value.str "wt-wt"),
          getVal args "safesearch" (Value.str "moderate"),
          lookupVal args "timelimit", lookupVal args "resolution",
          lookupVal args "duration", lookupVal args "license_videos",
          getVal args "max_results" (Value.int 10)⟩))]) :=
  ⟨dispatch_text args p kw h1 h2, dispatch_images args p kw h1 h2,
    dispatch_news args p kw h1 h2, dispatch_videos args p kw h1 h2⟩

/-- Claim C6, witness: with keywords "x" and an explicit region "us-en", the
text tool passes the query with the supplied region, the defaults for
safesearch and max_results, and no timelimit, to the provider. -/
theorem claim_C6_witness :
    handle_call_tool "ddg-text-search"
        (some [("keywords", Value.str "x"), ("region", Value.str "us-en")])
        emptyProvider =
      .ok [Content.text (formatTextResults (Value.str "x") (emptyProvider.text
        ⟨Value.str "x", Value.str "us-en", Value.str "moderate", none, Value.int 10⟩))] :=
  (claim_C6 [("keywords", Value.str "x"), ("region", Value.str "us-en")]
    emptyProvider (Value.str "x") rfl rfl).1

/-- Claim C9: "ddg-ai-chat" is not among the advertised catalog descriptors,
yet dispatching it with truthy keywords does not fail with UnknownTool: the
provider's chat operation is invoked with the model argument defaulting to the
literal "gpt-4o-mini", and the raw response is returned as a single text block
wrapped with a one-line header naming the model. -/
theorem claim_C9 :
    (((handle_list_tools ()).map Tool.name).contains "ddg-ai-chat" = false) ∧
    (∀ (args : Args) (p : Provider) (kw : Value),
      lookupVal args "keywords" = some kw → kw.truthy = true →
      handle_call_tool "ddg-ai-chat" (some args) p =
        .ok [Content.text ("DuckDuckGo AI (" ++
          (getVal args "model" (Value.str "gpt-4o-mini")).pyStr ++ ") response:\n\n" ++
          p.chat ⟨kw, getVal args "model" (Value.str "gpt-4o-mini")⟩)]) ∧
    (∀ args : Args, lookupVal args "model" = none →
      getVal args "model" (Value.str "gpt-4o-mini") = Value.str "gpt-4o-mini") :=
  ⟨by decide,
    fun args p kw h1 h2 => dispatch_chat args p kw h1 h2,
    fun args h => by simp [getVal, h]⟩

/-- Claim C9, witness: a concrete chat dispatch with no model argument; the
header names the default model and the stub's raw response follows. -/
theorem claim_C9_witness :
    handle_call_tool "ddg-ai-chat" (some [("keywords", Value.str "y")])
        twoRecordProvider =
      .ok [Content.text "DuckDuckGo AI (gpt-4o-mini) response:\n\nhello"] :=
  claim_C9.2.1 [("keywords", Value.str "y")] twoRecordProvider (Value.str "y") rfl rfl

/-- Claim C10: when the provider returns no records, `ddg-text-search`,
`ddg-news-search` and `ddg-video-search` each still return exactly one text
block consisting only of the header line naming the query followed by a blank
line, whereas `ddg-image-search` returns no content blocks at all. -/
theorem claim_C10 (args : Args) (p : Provider) (kw : Value)
    (h1 : lookupVal args "keywords" = some kw) (h2 : kw.truthy = true)
    (htext : p.text ⟨kw, getVal args "region" (Value.str "wt-wt"),
      getVal args "safesearch" (Value.str "moderate"), lookupVal args "timelimit",
      getVal args "max_results" (Value.int 10)⟩ = [])
    (hnews : p.news ⟨kw, getVal args "region" (Value.str "wt-wt"),
      getVal args "safesearch" (Value.str "moderate"), lookupVal args "timelimit",
      getVal args "max_results" (Value.int 10)⟩ = [])
    (hvid : p.videos ⟨kw, getVal args "region" (Value.str "wt-wt"),
      getVal args "safesearch" (Value.str "moderate"), lookupVal args "timelimit",
      lookupVal args "resolution", lookupVal args "duration",
      lookupVal args "license_videos", getVal args "max_results" (Value.int 10)⟩ = [])
    (himg : p.images ⟨kw, getVal args "region" (Value.str "wt-wt"),
      getVal args "safesearch" (Value.str "moderate"), lookupVal args "timelimit",
      lookupVal args "size", lookupVal args "color", lookupVal args "type_image",
      lookupVal args "layout", lookupVal args "license_image",
      getVal args "max_results" (Value.int 10)⟩ = []) :
    handle_call_tool "ddg-text-search" (some args) p =
      .ok [Content.text ("Search results for '" ++ kw.pyStr ++ "':\n\n")] ∧
    handle_call_tool "ddg-news-search" (some args) p =
      .ok [Content.text ("News search results for '" ++ kw.pyStr ++ "':\n\n")] ∧
    handle_call_tool "ddg-video-search" (some args) p =
      .ok [Content.text ("Video search results for '" ++ kw.pyStr ++ "':\n\n")] ∧
    handle_call_tool "ddg-image-search" (some args) p = .ok [] := by
  refine ⟨?_, ?_, ?_, ?_⟩
  · rw [dispatch_text args p kw h1 h2, htext]
    simp [formatTextResults, numberFrom, String.join]
  · rw [dispatch_news args p kw h1 h2, hnews]
    simp [formatNewsResults, numberFrom, String.join]
  · rw [dispatch_videos args p kw h1 h2, hvid]
    simp [formatVideoResults, numberFrom, String.join]
  · rw [dispatch_images args p kw h1 h2, himg]
    simp [formatImageBlocks, numberFrom]

/-- Claim C10, witness: against the all-empty provider with keywords "x", the
three concatenating tools return just their header blocks and the image tool
returns no blocks. -/
theorem claim_C10_witness :
    handle_call_tool "ddg-text-search" (some [("keywords", Value.str "x")])
        emptyProvider = .ok [Content.text "Search results for 'x':\n\n"] ∧
    handle_call_tool "ddg-image-search" (some [("keywords", Value.str "x")])
        emptyProvider = .ok [] :=
  ⟨(claim_C10 [("keywords", Value.str "x")] emptyProvider (Value.str "x")
      rfl rfl rfl rfl rfl rfl).1,
    (claim_C10 [("keywords", Value.str "x")] emptyProvider (Value.str "x")
      rfl rfl rfl rfl rfl rfl).2.2.2⟩

/-- Claim C7: with query "x" and no style argument, the summary prompt's single
message does not contain "Give extensive details."; with style="detailed" it
does (exercised against the one-record provider stub). -/
theorem claim_C7 :
    (messageTexts (handle_get_prompt "search-results-summary"
      (some [("query", "x")]) promptStubResults)).length = 1 ∧
    ((messageTexts (handle_get_prompt "search-results-summary"
      (some [("query", "x")]) promptStubResults)).all
        (fun t => !(strHasSub "Give extensive details." t))) = true ∧
    (messageTexts (handle_get_prompt "search-results-summary"
      (some [("query", "x"), ("style", "detailed")]) promptStubResults)).length = 1 ∧
    ((messageTexts (handle_get_prompt "search-results-summary"
      (some [("query", "x"), ("style", "detailed")]) promptStubResults)).all
        (fun t => strHasSub "Give extensive details." t)) = true := by
  refine ⟨rfl, ?_, rfl, ?_⟩ <;> decide

/-- Claim C1, counterexample: "ddg-ai-chat" matches no catalog entry, yet
dispatching it with non-empty arguments and truthy keywords does not fail with
UnknownTool — it succeeds against the stub provider. -/
theorem claim_C1_counterexample :
    (((handle_list_tools ()).map Tool.name).contains "ddg-ai-chat" = false) ∧
    handle_call_tool "ddg-ai-chat" (some [("keywords", Value.str "x")])
        twoRecordProvider =
      .ok [Content.text "DuckDuckGo AI (gpt-4o-mini) response:\n\nhello"] ∧
    handle_call_tool "ddg-ai-chat" (some [("keywords", Value.str "x")])
        twoRecordProvider ≠
      .error (DispatchError.UnknownTool "ddg-ai-chat") :=
  ⟨by decide, rfl, fun h => nomatch h⟩

/-- Claim C1, amended: validation is applied in order before any external
call, with "catalog entry" read as "dispatcher entry" (the four catalog tools
plus the unadvertised "ddg-ai-chat", i.e. `dispatchNames`): if the arguments
mapping is absent or empty the call fails with MissingArguments; otherwise, if
the name matches no dispatcher entry it fails with UnknownTool; otherwise, if
the tool's required `keywords` parameter is absent or empty it fails with
MissingRequiredParameter.  Whatever error `validationSpec` prescribes, the
dispatcher returns it, for every provider. -/
theorem claim_C1 (name : String) (arguments : Option Args) (p : Provider)
    (e : DispatchError) (h : validationSpec name arguments = some e) :
    handle_call_tool name arguments p = .error e := by
  simp only [validationSpec] at h
  by_cases ha : argsTruthy arguments = false
  · rw [if_pos ha] at h
    injection h with h'
    subst h'
    simp [handle_call_tool, ha]
  · have ha' : argsTruthy arguments = true := by
      cases hx : argsTruthy arguments
      · exact absurd hx ha
      · rfl
    rw [if_neg ha] at h
    by_cases hn : dispatchNames.contains name = false
    · rw [if_pos hn] at h
      injection h with h'
      subst h'
      have e1 : ¬ name = "ddg-text-search" := by
        intro hx; subst hx; exact absurd hn (by decide)
      have e2 : ¬ name = "ddg-image-search" := by
        intro hx; subst hx; exact absurd hn (by decide)
      have e3 : ¬ name = "ddg-news-search" := by
        intro hx; subst hx; exact absurd hn (by decide)
      have e4 : ¬ name = "ddg-video-search" := by
        intro hx; subst hx; exact absurd hn (by decide)
      have e5 : ¬ name = "ddg-ai-chat" := by
        intro hx; subst hx; exact absurd hn (by decide)
      simp [handle_call_tool, ha', e1, e2, e3, e4, e5]
    · have hn' : dispatchNames.contains name = true := by
        cases hx : dispatchNames.contains name
        · exact absurd hx hn
        · rfl
      rw [if_neg hn] at h
      by_cases hk : truthyOpt (lookupVal (arguments.getD []) "keywords") = false
      · rw [if_pos hk] at h
        injection h with h'
        subst h'
        have hmem : name = "ddg-text-search" ∨ name = "ddg-image-search" ∨
            name = "ddg-news-search" ∨ name = "ddg-video-search" ∨
            name = "ddg-ai-chat" := by
          simpa [dispatchNames] using hn'
        have hgo : ∀ v : Value, lookupVal (arguments.getD []) "keywords" = some v →
            v.truthy = false := by
          intro v hv
          rw [hv] at hk
          simpa [truthyOpt] using hk
        rcases hmem with h1 | h1 | h1 | h1 | h1 <;> subst h1 <;>
          (cases hlk : lookupVal (arguments.getD []) "keywords" with
           | none => simp [handle_call_tool, ha', hlk]
           | some v => simp [handle_call_tool, ha', hlk, hgo v hlk])
      · rw [if_neg hk] at h
        exact Option.noConfusion h

/-- Claim C1, witness: an unknown name with absent arguments is prescribed
MissingArguments by the validation policy, and the dispatcher fails with it. -/
theorem claim_C1_witness :
    handle_call_tool "nope" none emptyProvider =
      .error DispatchError.MissingArguments :=
  claim_C1 "nope" none emptyProvider DispatchError.MissingArguments rfl
